import Mathlib

/-!
Verification of the PS2 controller protocol analyzer
(`src/HighLevelAnalyzer.py`).

The Python module is shallowly embedded:
* bytes are `Nat` (they come from `int.from_bytes` of single-byte frames);
* Python list indexing `xs[i]`, which raises `IndexError` when out of
  range, is modelled with `List.get?` in the `Option` monad; a renderer
  that would raise returns `none`;
* the mutable analyzer object is a state record `HlaState`, and
  `Hla.decode` is a function from a state and an input frame to the next
  state together with the (at most one) emitted result frame.
-/

namespace PS2Analyzer

/-- Source list `DIGITAL_BUTTONS`: display names of the 16 digital
buttons, in bit order.  The last four are the glyphs used by the code. -/
def DIGITAL_BUTTONS : List String :=
  ["Select", "L3", "R3", "Start", "D-Up", "D-Right", "D-Down", "D-Left",
   "L2", "R2", "L1", "R1", "🔺", "⚪", "✖", "⬛"]

/-- Python `'%s' % b` rendering of a `bool`. -/
def pyBoolStr (b : Bool) : String :=
  if b then "True" else "False"

/-- Source function `command_empty_details`. -/
def command_empty_details (_command_bytes _data_bytes : List Nat) : Option String :=
  some ""

/-- Source function `data_empty_details`. -/
def data_empty_details (_command_bytes _data_bytes : List Nat) : Option String :=
  some "(...)"

/-- Source function `cmd42_command_details`.  The Python condition
`command_bytes[3] or command_bytes[4]` short-circuits: `command_bytes[4]`
is only read in the condition when `command_bytes[3]` is zero; the body
then reads both offsets again. -/
def cmd42_command_details (command_bytes _data_bytes : List Nat) : Option String := do
  let b3 ← command_bytes.get? 3
  let cond ← if b3 ≠ 0 then pure true else do
    let b4 ← command_bytes.get? 4
    pure (b4 != 0)
  if cond then do
    let small_motor_mapping := b3
    let large_motor_mapping ← command_bytes.get? 4
    pure ("Small Motor " ++ pyBoolStr (small_motor_mapping = 0xFF) ++
          ", Large Motor " ++ pyBoolStr (0x40 ≤ large_motor_mapping))
  else
    pure ""

/-- Body of the `for bi, button_name in enumerate(DIGITAL_BUTTONS)` loop of
`cmd42_data_details`: one iteration, appending to the accumulated
`digital_buttons` list. -/
def cmd42_button_step (data_bytes : List Nat) (acc : List String) (p : Nat × String) :
    Option (List String) := do
  let bi := p.1
  let button_name := p.2
  let byte_number := if bi < 8 then 3 else 4
  let bit_number := bi % 8
  let digital_byte ← data_bytes.get? byte_number
  if digital_byte &&& (1 <<< bit_number) = 0 then
    pure (acc ++ [button_name])
  else
    pure acc

/-- Source function `cmd42_data_details`. -/
def cmd42_data_details (_command_bytes data_bytes : List Nat) : Option String := do
  let digital_buttons ← DIGITAL_BUTTONS.enum.foldlM (cmd42_button_step data_bytes) []
  if digital_buttons.length ≠ 0 then
    pure (String.intercalate ", " digital_buttons)
  else
    pure "(no buttons)"

/-- Source function `cmd43_command_details`. -/
def cmd43_command_details (command_bytes _data_bytes : List Nat) : Option String := do
  let b3 ← command_bytes.get? 3
  pure (if b3 = 0x01 then "Enter" else "Exit")

/-- Source function `cmd43_data_details`. -/
def cmd43_data_details (command_bytes data_bytes : List Nat) : Option String := do
  let b1 ← data_bytes.get? 1
  if b1 = 0xF3 then
    pure "(no data)"
  else
    cmd42_data_details command_bytes data_bytes

/-- Source function `cmd44_command_details`. -/
def cmd44_command_details (command_bytes _data_bytes : List Nat) : Option String := do
  let is_analog ← do
    let b3 ← command_bytes.get? 3
    pure (b3 == 0x01)
  let is_locked ← do
    let b4 ← command_bytes.get? 4
    pure (b4 == 0x03)
  let mode_string := if is_analog then "Analog" else "Digital"
  let locked_string := if is_locked then " (Locked)" else ""
  pure ("Set " ++ mode_string ++ locked_string)

/-- Source function `cmd46_command_details`. -/
def cmd46_command_details (command_bytes _data_bytes : List Nat) : Option String := do
  let offset ← command_bytes.get? 3
  if offset = 0 then
    pure "First Byte"
  else if offset = 1 then
    pure "Second Byte"
  else
    pure "Unknown Byte"

/-- Source function `cmd4c_command_details` (delegates to `cmd46`). -/
def cmd4c_command_details (command_bytes data_bytes : List Nat) : Option String :=
  cmd46_command_details command_bytes data_bytes

/-- Source function `cmd4d_command_details`. -/
def cmd4d_command_details (command_bytes _data_bytes : List Nat) : Option String := do
  let small_mapping ← command_bytes.get? 3
  let large_mapping ← command_bytes.get? 4
  let details := [(if small_mapping = 0x00 then "Map" else "Unmap") ++ " Small",
                  (if large_mapping = 0x01 then "Map" else "Unmap") ++ " Large"]
  pure (String.intercalate ", " details)

/-- Source named tuple `CommandMetadata`: one registry entry. -/
structure CommandMetadata where
  id : Nat
  name : String
  command_details_generator : List Nat → List Nat → Option String
  data_details_generator : List Nat → List Nat → Option String

/-- Source table `COMMAND_METADATA`, as a partial map from command id to
its descriptor (`none` = id absent from the Python dict). -/
def COMMAND_METADATA : Nat → Option CommandMetadata
  | 0x40 => some ⟨0x40, "Initialize Pressure Sensors", command_empty_details, data_empty_details⟩
  | 0x41 => some ⟨0x41, "Button Inclusions", command_empty_details, data_empty_details⟩
  | 0x42 => some ⟨0x42, "Main Polling", cmd42_command_details, cmd42_data_details⟩
  | 0x43 => some ⟨0x43, "Enter/Exit Config Mode", cmd43_command_details, cmd43_data_details⟩
  | 0x44 => some ⟨0x44, "Switch Analog/Digital Mode", cmd44_command_details, data_empty_details⟩
  | 0x45 => some ⟨0x45, "Get Status Info", command_empty_details, data_empty_details⟩
  | 0x46 => some ⟨0x46, "Device Descriptor", cmd46_command_details, data_empty_details⟩
  | 0x47 => some ⟨0x47, "Device Descriptor", command_empty_details, data_empty_details⟩
  | 0x4C => some ⟨0x4C, "Device Descriptor", cmd4c_command_details, data_empty_details⟩
  | 0x4D => some ⟨0x4D, "Map Rumble Motors", cmd4d_command_details, data_empty_details⟩
  | 0x4F => some ⟨0x4F, "Configure Analog Response", command_empty_details, data_empty_details⟩
  | _ => none

/-- Source table `MODE_NAMES`. -/
def MODE_NAMES : Nat → Option String
  | 0x41 => some "Digital"
  | 0x73 => some "Analog"
  | 0x79 => some "Analog with Pressure"
  | 0xF3 => some "Configuration"
  | _ => none

/-- Values taken by `self.current_frame_type` in the source (the Python
strings `'invalid-packet'`, `'invalid-command'`, `'valid-command'`;
`None` is modelled by `Option`). -/
inductive FrameType
  | invalidPacket
  | invalidCommand
  | validCommand
deriving DecidableEq, Repr

/-- Input frames consumed by `Hla.decode`, by `frame.type`: `'enable'`
(start marker, carrying `frame.start_time`), `'result'` (one byte pair,
carrying the `mosi`/`miso` byte values), `'disable'` (end marker,
carrying `frame.end_time`).  `other` stands for any frame of a type the
code does not test for, which falls through every branch. -/
inductive Frame
  | enable (start_time : Nat)
  | result (mosi miso : Nat)
  | disable (end_time : Nat)
  | other
deriving DecidableEq, Repr

/-- The mutable fields of the `Hla` object. -/
structure HlaState where
  current_frame_type : Option FrameType
  current_frame_start_time : Option Nat
  current_frame_command_id : Option Nat
  current_controller_mode : Option Nat
  current_frame_command_bytes : List Nat
  current_frame_data_bytes : List Nat
  current_frame_index : Nat
deriving DecidableEq, Repr

/-- Source method `Hla.reset` (also the `__init__` state). -/
def resetState : HlaState :=
  { current_frame_type := none
    current_frame_start_time := none
    current_frame_command_id := none
    current_controller_mode := none
    current_frame_command_bytes := []
    current_frame_data_bytes := []
    current_frame_index := 0 }

/-- The `AnalyzerFrame` emitted on the `disable` branch, with the fields
of its data dictionary. -/
structure AnalyzerResultFrame where
  frame_type : FrameType
  start_time : Nat
  end_time : Nat
  mode_string : String
  mode_id : String
  command_name : String
  command_id : String
  command_details : String
  data_details : String
deriving DecidableEq, Repr

/-- One uppercase hexadecimal digit. -/
def hexDigit (n : Nat) : Char :=
  if n < 10 then Char.ofNat (48 + n) else Char.ofNat (55 + n)

/-- Uppercase hexadecimal digits of `n`, most significant first
(fuel-structured so that it reduces definitionally). -/
def hexDigitsCore : Nat → Nat → List Char
  | 0, _ => []
  | fuel + 1, n =>
    if n < 16 then [hexDigit n]
    else hexDigitsCore fuel (n / 16) ++ [hexDigit (n % 16)]

/-- Python `'%02X' % n`: uppercase hex, zero-padded to width 2. -/
def hex2 (n : Nat) : String :=
  let ds := hexDigitsCore (n + 1) n
  ⟨List.replicate (2 - ds.length) '0' ++ ds⟩

/-- The classification part of the `'result'` branch of `Hla.decode`
(the `if self.current_frame_index == 0 and command != 0x01: ... elif
self.current_frame_index == 1: ...` chain). -/
def classifyStep (s : HlaState) (mosi miso : Nat) : HlaState :=
  if s.current_frame_index = 0 ∧ mosi ≠ 0x01 then
    { s with current_frame_type := some FrameType.invalidPacket }
  else if s.current_frame_index = 1 then
    { s with
      current_frame_command_id := some mosi
      current_controller_mode := some miso
      current_frame_type :=
        some (if (COMMAND_METADATA mosi).isSome then FrameType.validCommand
              else FrameType.invalidCommand) }
  else
    s

/-- The whole `'result'` branch of `Hla.decode`: classify, then append the
byte pair and advance the index counter. -/
def resultStep (s : HlaState) (mosi miso : Nat) : HlaState :=
  let s1 := classifyStep s mosi miso
  { s1 with
    current_frame_command_bytes := s1.current_frame_command_bytes ++ [mosi]
    current_frame_data_bytes := s1.current_frame_data_bytes ++ [miso]
    current_frame_index := s1.current_frame_index + 1 }

/-- The `'disable'` branch of `Hla.decode`: emit one `AnalyzerFrame` when a
start marker was seen and the transaction is classified `valid-command`,
else nothing.  The two renderer invocations are wrapped in their own
`try/except` blocks in the source; a raising renderer (modelled by
`none`) is replaced by `"(error)"` for that field only.  The inner
`match` arms returning `none` are unreachable: whenever
`current_frame_type = some validCommand`, the command id and controller
mode were recorded at index 1 and the id is a registry key. -/
def disableStep (s : HlaState) (end_time : Nat) : Option AnalyzerResultFrame :=
  if s.current_frame_start_time.isSome ∧ s.current_frame_type = some FrameType.validCommand then
    match s.current_frame_start_time, s.current_frame_command_id, s.current_controller_mode with
    | some t, some cid, some m =>
      match COMMAND_METADATA cid with
      | some command_metadata =>
        let command_details :=
          (command_metadata.command_details_generator
            s.current_frame_command_bytes s.current_frame_data_bytes).getD "(error)"
        let data_details :=
          (command_metadata.data_details_generator
            s.current_frame_command_bytes s.current_frame_data_bytes).getD "(error)"
        some
          { frame_type := FrameType.validCommand
            start_time := t
            end_time := end_time
            mode_string := (MODE_NAMES m).getD "Unknown Mode"
            mode_id := hex2 m
            command_name := command_metadata.name
            command_id := hex2 command_metadata.id
            command_details := if command_details = "" then "" else " - " ++ command_details
            data_details := if data_details = "" then "" else data_details }
      | none => none
    | _, _, _ => none
  else
    none

/-- Source method `Hla.decode`: next state and emitted frame (if any). -/
def decode (s : HlaState) : Frame → HlaState × Option AnalyzerResultFrame
  | Frame.enable t => ({ resetState with current_frame_start_time := some t }, none)
  | Frame.result mosi miso => (resultStep s mosi miso, none)
  | Frame.disable u => (s, disableStep s u)
  | Frame.other => (s, none)

/-- Fold step: feed one frame, accumulating every emitted result frame. -/
def stepRun (acc : HlaState × List AnalyzerResultFrame) (f : Frame) :
    HlaState × List AnalyzerResultFrame :=
  ((decode acc.1 f).1, acc.2 ++ (decode acc.1 f).2.toList)

/-- Run the analyzer from its freshly-constructed state over a frame
sequence, collecting all emitted result frames. -/
def runDecode (events : List Frame) : HlaState × List AnalyzerResultFrame :=
  events.foldl stepRun (resetState, [])

/-- The event sequence of one bounded transaction: a start marker at time
`t`, the byte pairs `bps`, an end marker at time `u`. -/
def transactionEvents (t : Nat) (bps : List (Nat × Nat)) (u : Nat) : List Frame :=
  Frame.enable t :: (bps.map (fun p => Frame.result p.1 p.2) ++ [Frame.disable u])

/-- The sixteen button names exactly as the spec sentence lists them.
Used only to compare the claim's wording with the code's button list. -/
def SPEC_BUTTON_NAMES : List String :=
  ["Select", "L3", "R3", "Start", "D-Up", "D-Right", "D-Down", "D-Left",
   "L2", "R2", "L1", "R1", "Triangle", "Circle", "Cross", "Square"]

/-- Modelled from the spec (claim C5): interpret two bytes as an
active-low 16-bit button mask — bits 0-7 in the byte at offset 3, bits
8-15 in the byte at offset 4 — over the given names in bit order, and
render the comma-joined names whose bit is 0, or `"(no buttons)"` when
every bit is set. -/
def spec_button_render (names : List String) (b3 b4 : Nat) : String :=
  let pressed :=
    (names.enum.filter
      (fun p => (if p.1 < 8 then b3 else b4) &&& (1 <<< (p.1 % 8)) == 0)).map
      (fun p => p.2)
  if pressed.length ≠ 0 then String.intercalate ", " pressed else "(no buttons)"

/-- One loop iteration of `cmd42_data_details`, once the two data bytes
are known to be present, is a pure filtered append. -/
lemma cmd42_button_step_eq (db : List Nat) (b3 b4 : Nat)
    (h3 : db.get? 3 = some b3) (h4 : db.get? 4 = some b4)
    (acc : List String) (p : Nat × String) :
    cmd42_button_step db acc p =
      some (if (if p.1 < 8 then b3 else b4) &&& (1 <<< (p.1 % 8)) == 0
            then acc ++ [p.2] else acc) := by
  have h3' : db[3]? = some b3 := by simpa [← List.get?_eq_getElem? ] using h3
  have h4' : db[4]? = some b4 := by simpa [← List.get?_eq_getElem? ] using h4
  unfold cmd42_button_step
  by_cases h : p.1 < 8
  · by_cases hbit : b3 &&& (1 <<< (p.1 % 8)) = 0 <;> simp [h, h3', hbit]
  · by_cases hbit : b4 &&& (1 <<< (p.1 % 8)) = 0 <;> simp [h, h4', hbit]

/-- The button loop of `cmd42_data_details` as a pure fold. -/
lemma cmd42_fold_eq (db : List Nat) (b3 b4 : Nat)
    (h3 : db.get? 3 = some b3) (h4 : db.get? 4 = some b4) :
    ∀ (l : List (Nat × String)) (acc : List String),
      l.foldlM (cmd42_button_step db) acc =
        some (l.foldl
          (fun a p => if (if p.1 < 8 then b3 else b4) &&& (1 <<< (p.1 % 8)) == 0
                      then a ++ [p.2] else a) acc) := by
  intro l
  induction l with
  | nil => intro acc; simp
  | cons p l ih =>
    intro acc
    rw [List.foldlM_cons, cmd42_button_step_eq db b3 b4 h3 h4]
    simp [ih]

/-- Folding a filtered append produces the mapped filter. -/
lemma foldl_filter_map (P : Nat × String → Bool) :
    ∀ (l : List (Nat × String)) (acc : List String),
      l.foldl (fun a p => if P p then a ++ [p.2] else a) acc =
        acc ++ (l.filter P).map (fun p => p.2) := by
  intro l
  induction l with
  | nil => intro acc; simp
  | cons p l ih =>
    intro acc
    by_cases h : P p <;> simp [h, ih]

/-- With both data bytes present, `cmd42_data_details` renders exactly the
active-low mask over the code's button-name list. -/
lemma cmd42_data_details_spec (cb db : List Nat) (b3 b4 : Nat)
    (h3 : db.get? 3 = some b3) (h4 : db.get? 4 = some b4) :
    cmd42_data_details cb db = some (spec_button_render DIGITAL_BUTTONS b3 b4) := by
  have key : ∀ l : List String,
      (if l.length ≠ 0 then (pure (String.intercalate ", " l) : Option String)
       else pure "(no buttons)") =
        some (if l.length ≠ 0 then String.intercalate ", " l else "(no buttons)") := by
    intro l
    by_cases h : l.length = 0 <;> simp [h]
  unfold cmd42_data_details spec_button_render
  rw [cmd42_fold_eq db b3 b4 h3 h4, foldl_filter_map]
  simp only [List.nil_append, Option.bind_eq_bind, Option.some_bind]
  exact key _

/-- Claim C5, counterexample: the claim reads the rendered output as the
comma-joined names drawn from Select, …, Triangle, Circle, Cross,
Square.  With data bytes 3,4 = `0xFF,0xEF` exactly the bit of the
thirteenth button (Triangle) is 0, yet the code renders the glyph
`"🔺"`, not the name `"Triangle"` that the claim's name list yields. -/
theorem C5_names_counterexample :
    cmd42_data_details [] [0, 0, 0, 0xFF, 0xEF] = some "🔺" ∧
    spec_button_render SPEC_BUTTON_NAMES 0xFF 0xEF = "Triangle" ∧
    cmd42_data_details [] [0, 0, 0, 0xFF, 0xEF] ≠
      some (spec_button_render SPEC_BUTTON_NAMES 0xFF 0xEF) := by
  refine ⟨by decide, by decide, ?_⟩
  decide

/-- Claim C5 (amended): for every pair of byte sequences long enough to
index offsets 3 and 4, the Main Polling data renderer treats the
returned bytes at offsets 3 and 4 as an active-low 16-bit mask (bits 0-7
in the byte at offset 3, bits 8-15 in the byte at offset 4) over the 16
buttons in the code's fixed bit order — whose display names are Select,
L3, R3, Start, D-Up, D-Right, D-Down, D-Left, L2, R2, L1, R1 and then
the four glyphs 🔺, ⚪, ✖, ⬛ — returning the comma-joined names of
buttons whose bit is 0, and exactly `"(no buttons)"` when bytes 3 and 4
are `0xFF,0xFF`; with byte 3 = `0xFE` and byte 4 = `0xFF` it lists
exactly `"Select"`. -/
theorem C5_main_polling_data_renderer :
    (∀ (cb db : List Nat) (b3 b4 : Nat),
      db.get? 3 = some b3 → db.get? 4 = some b4 →
        cmd42_data_details cb db = some (spec_button_render DIGITAL_BUTTONS b3 b4)) ∧
    cmd42_data_details [] [0, 0, 0, 0xFF, 0xFF] = some "(no buttons)" ∧
    cmd42_data_details [] [0, 0, 0, 0xFE, 0xFF] = some "Select" := by
  refine ⟨fun cb db b3 b4 h3 h4 => cmd42_data_details_spec cb db b3 b4 h3 h4, by decide, by decide⟩

/-- Witness for C5 (amended), at concrete byte sequences of different
lengths and contents. -/
theorem C5_main_polling_data_renderer_witness :
    cmd42_data_details [9] [1, 2, 3, 0xF0, 0x0F] =
      some (spec_button_render DIGITAL_BUTTONS 0xF0 0x0F) :=
  C5_main_polling_data_renderer.1 [9] [1, 2, 3, 0xF0, 0x0F] 0xF0 0x0F rfl rfl

/-- Claim C6: for every Enter/Exit Config Mode (0x43) transaction with
the relevant offsets present, the command-side renderer returns
`"Enter"` exactly when outgoing byte 3 is `0x01` and `"Exit"` otherwise;
the data-side renderer returns `"(no data)"` exactly when returned
byte 1 is `0xF3` (whatever the other bytes hold), and otherwise returns
the very string the Main Polling data renderer returns on the same
inputs. -/
theorem C6_config_mode_renderers :
    (∀ (cb db : List Nat) (b3 : Nat), cb.get? 3 = some b3 →
      cmd43_command_details cb db = some (if b3 = 0x01 then "Enter" else "Exit")) ∧
    (∀ (cb db : List Nat) (b1 : Nat), db.get? 1 = some b1 →
      cmd43_data_details cb db =
        if b1 = 0xF3 then some "(no data)" else cmd42_data_details cb db) := by
  constructor
  · intro cb db b3 h3
    have h3' : cb[3]? = some b3 := by simpa [← List.get?_eq_getElem? ] using h3
    unfold cmd43_command_details
    simp [h3']
  · intro cb db b1 h1
    have h1' : db[1]? = some b1 := by simpa [← List.get?_eq_getElem? ] using h1
    unfold cmd43_data_details
    by_cases h : b1 = 0xF3 <;> simp [h1', h]

/-- Witness for C6: `"Enter"` on outgoing byte 3 = 0x01, `"(no data)"`
when the device reports Configuration mode even with button bytes
present, and delegation to the Main Polling renderer otherwise. -/
theorem C6_config_mode_renderers_witness :
    cmd43_command_details [1, 0x43, 0, 0x01] [] = some "Enter" ∧
    cmd43_data_details [] [0xFF, 0xF3, 0, 0xFE, 0xFF] = some "(no data)" ∧
    cmd43_data_details [] [0xFF, 0x41, 0, 0xFE, 0xFF] =
      cmd42_data_details [] [0xFF, 0x41, 0, 0xFE, 0xFF] := by
  refine ⟨?_, ?_, ?_⟩
  · have := C6_config_mode_renderers.1 [1, 0x43, 0, 0x01] [] 0x01 rfl
    simpa using this
  · have := C6_config_mode_renderers.2 [] [0xFF, 0xF3, 0, 0xFE, 0xFF] 0xF3 rfl
    simpa using this
  · have := C6_config_mode_renderers.2 [] [0xFF, 0x41, 0, 0xFE, 0xFF] 0x41 rfl
    simpa using this

/-- Claim C7: for every Switch Analog/Digital Mode (0x44) transaction
with outgoing bytes 3 and 4 present, the command detail is
`"Set Analog"` when byte 3 is `0x01` and `"Set Digital"` otherwise, with
`" (Locked)"` appended exactly when byte 4 is `0x03`; in particular with
bytes 3,4 = `0x01,0x03` it is `"Set Analog (Locked)"`. -/
theorem C7_switch_mode_renderer :
    (∀ (cb db : List Nat) (b3 b4 : Nat),
      cb.get? 3 = some b3 → cb.get? 4 = some b4 →
        cmd44_command_details cb db =
          some ("Set " ++ (if b3 = 0x01 then "Analog" else "Digital") ++
                (if b4 = 0x03 then " (Locked)" else ""))) ∧
    cmd44_command_details [0, 0, 0, 0x01, 0x03] [] = some "Set Analog (Locked)" := by
  constructor
  · intro cb db b3 b4 h3 h4
    have h3' : cb[3]? = some b3 := by simpa [← List.get?_eq_getElem? ] using h3
    have h4' : cb[4]? = some b4 := by simpa [← List.get?_eq_getElem? ] using h4
    unfold cmd44_command_details
    by_cases ha : b3 = 0x01 <;> by_cases hl : b4 = 0x03 <;> simp [h3', h4', ha, hl]
  · decide

/-- Witness for C7, at a concrete non-analog, locked argument pair. -/
theorem C7_switch_mode_renderer_witness :
    cmd44_command_details [0, 0, 0, 2, 3] [] = some "Set Digital (Locked)" := by
  have := C7_switch_mode_renderer.1 [0, 0, 0, 2, 3] [] 2 3 rfl rfl
  simpa using this

/-- Claim C10: the Main Polling data renderer's output depends only on
the returned bytes at offsets 3 and 4 — two calls whose data sequences
agree there (and are long enough) return the same string, whatever the
command sequence and the other data bytes are. -/
theorem C10_data_renderer_noninterference :
    ∀ (cb cb' db db' : List Nat) (b3 b4 : Nat),
      db.get? 3 = some b3 → db.get? 4 = some b4 →
      db'.get? 3 = some b3 → db'.get? 4 = some b4 →
        cmd42_data_details cb db = cmd42_data_details cb' db' := by
  intro cb cb' db db' b3 b4 h3 h4 h3' h4'
  rw [cmd42_data_details_spec cb db b3 b4 h3 h4,
      cmd42_data_details_spec cb' db' b3 b4 h3' h4']

/-- Witness for C10: same bytes 3,4, different lengths, other bytes and
command sequences. -/
theorem C10_data_renderer_noninterference_witness :
    cmd42_data_details [] [0, 0, 0, 5, 6] = cmd42_data_details [7] [1, 1, 1, 5, 6, 9] :=
  C10_data_renderer_noninterference [] [7] [0, 0, 0, 5, 6] [1, 1, 1, 5, 6, 9] 5 6
    rfl rfl rfl rfl

/-- Byte-pair events never touch the recorded start timestamp. -/
lemma resultStep_start_time (s : HlaState) (a b : Nat) :
    (resultStep s a b).current_frame_start_time = s.current_frame_start_time := by
  unfold resultStep classifyStep
  split_ifs <;> rfl

/-- Byte-pair events advance the index counter by one. -/
lemma resultStep_index (s : HlaState) (a b : Nat) :
    (resultStep s a b).current_frame_index = s.current_frame_index + 1 := by
  unfold resultStep classifyStep
  split_ifs <;> rfl

/-- From index 2 on, byte-pair events leave the classification alone. -/
lemma resultStep_type_of_ge2 (s : HlaState) (a b : Nat)
    (h : 2 ≤ s.current_frame_index) :
    (resultStep s a b).current_frame_type = s.current_frame_type := by
  have h1 : ¬(s.current_frame_index = 0 ∧ a ≠ 0x01) := by
    rintro ⟨h0, _⟩; omega
  have h2 : s.current_frame_index ≠ 1 := by omega
  unfold resultStep classifyStep
  simp [h1, h2]

/-- Running the analyzer over byte-pair frames only folds `resultStep`
over the state and emits nothing. -/
lemma run_results_eq (ps : List (Nat × Nat)) :
    ∀ (s : HlaState) (out : List AnalyzerResultFrame),
      (ps.map (fun p => Frame.result p.1 p.2)).foldl stepRun (s, out) =
        (ps.foldl (fun st p => resultStep st p.1 p.2) s, out) := by
  induction ps with
  | nil => intro s out; rfl
  | cons p ps ih =>
    intro s out
    have hstep : stepRun (s, out) (Frame.result p.1 p.2) = (resultStep s p.1 p.2, out) := by
      simp [stepRun, decode]
    simp only [List.map_cons, List.foldl_cons, hstep, ih]

/-- Once the index counter has reached 2, any run of further byte-pair
events preserves the classification and the start timestamp, and keeps
the index at 2 or above. -/
lemma foldl_resultStep_inv (ps : List (Nat × Nat)) :
    ∀ (s : HlaState), 2 ≤ s.current_frame_index →
      ((ps.foldl (fun st p => resultStep st p.1 p.2) s).current_frame_type =
          s.current_frame_type ∧
        (ps.foldl (fun st p => resultStep st p.1 p.2) s).current_frame_start_time =
          s.current_frame_start_time ∧
        2 ≤ (ps.foldl (fun st p => resultStep st p.1 p.2) s).current_frame_index) := by
  induction ps with
  | nil => intro s h; exact ⟨rfl, rfl, h⟩
  | cons p ps ih =>
    intro s h
    have h' : 2 ≤ (resultStep s p.1 p.2).current_frame_index := by
      rw [resultStep_index]; omega
    obtain ⟨ht, hs, hi⟩ := ih (resultStep s p.1 p.2) h'
    refine ⟨?_, ?_, hi⟩
    · rw [List.foldl_cons] at *
      rw [ht, resultStep_type_of_ge2 s p.1 p.2 h]
    · rw [List.foldl_cons] at *
      rw [hs, resultStep_start_time]

/-- The end-marker branch emits nothing unless the transaction is
classified `valid-command`. -/
lemma disableStep_not_valid (s : HlaState) (u : Nat)
    (h : s.current_frame_type ≠ some FrameType.validCommand) :
    disableStep s u = none := by
  unfold disableStep
  rw [if_neg]
  rintro ⟨_, hv⟩
  exact h hv

/-- The output of one bounded transaction is whatever the end marker
emits from the state folded over its byte pairs. -/
lemma run_transaction_output (t u : Nat) (bps : List (Nat × Nat)) :
    (runDecode (transactionEvents t bps u)).2 =
      (disableStep
        (bps.foldl (fun st p => resultStep st p.1 p.2)
          { resetState with current_frame_start_time := some t }) u).toList := by
  unfold runDecode transactionEvents
  rw [List.foldl_cons]
  have he : stepRun (resetState, []) (Frame.enable t) =
      ({ resetState with current_frame_start_time := some t }, []) := by
    simp [stepRun, decode]
  rw [he, List.foldl_append, run_results_eq, List.foldl_cons]
  simp [stepRun, decode]

/-- First byte pair after a start marker, with a bad header byte:
classified `invalid-packet`. -/
lemma resultStep_enabled_bad_header (t : Nat) (p : Nat × Nat) (hh : p.1 ≠ 0x01) :
    resultStep { resetState with current_frame_start_time := some t } p.1 p.2 =
      { current_frame_type := some FrameType.invalidPacket
        current_frame_start_time := some t
        current_frame_command_id := none
        current_controller_mode := none
        current_frame_command_bytes := [p.1]
        current_frame_data_bytes := [p.2]
        current_frame_index := 1 } := by
  unfold resultStep classifyStep resetState
  rw [if_pos ⟨rfl, hh⟩]
  rfl

/-- First byte pair after a start marker, with the 0x01 header byte: the
classification is left undecided. -/
lemma resultStep_enabled_good_header (t : Nat) (p : Nat × Nat) (hh : p.1 = 0x01) :
    resultStep { resetState with current_frame_start_time := some t } p.1 p.2 =
      { current_frame_type := none
        current_frame_start_time := some t
        current_frame_command_id := none
        current_controller_mode := none
        current_frame_command_bytes := [p.1]
        current_frame_data_bytes := [p.2]
        current_frame_index := 1 } := by
  unfold resultStep classifyStep resetState
  rw [if_neg (by rintro ⟨_, hne⟩; exact hne hh), if_neg (by simp)]
  rfl

/-- Byte pair at index 1 whose console byte is not a registry key:
classified `invalid-command`, whatever the classification was before. -/
lemma resultStep_index1_unregistered (s : HlaState) (p : Nat × Nat)
    (hidx : s.current_frame_index = 1) (hreg : COMMAND_METADATA p.1 = none) :
    resultStep s p.1 p.2 =
      { s with
        current_frame_type := some FrameType.invalidCommand
        current_frame_command_id := some p.1
        current_controller_mode := some p.2
        current_frame_command_bytes := s.current_frame_command_bytes ++ [p.1]
        current_frame_data_bytes := s.current_frame_data_bytes ++ [p.2]
        current_frame_index := s.current_frame_index + 1 } := by
  unfold resultStep classifyStep
  rw [if_neg (by rintro ⟨h0, _⟩; omega), if_pos hidx, hreg]
  rfl

/-- With the index counter at 2 or above and a classification other than
`valid-command`, any further byte pairs and the end marker emit
nothing. -/
lemma run_tail_no_emission (rest2 : List (Nat × Nat)) (u : Nat) (s : HlaState)
    (hidx : 2 ≤ s.current_frame_index)
    (hty : s.current_frame_type ≠ some FrameType.validCommand) :
    (disableStep (rest2.foldl (fun st p => resultStep st p.1 p.2) s) u).toList = [] := by
  obtain ⟨ht, _, _⟩ := foldl_resultStep_inv rest2 s hidx
  rw [disableStep_not_valid _ _ (by rw [ht]; exact hty)]
  rfl

/-- Claim C1, counterexample: a transaction whose first console byte is
0xFF (not the 0x01 header) but whose second console byte is 0x42 (the
registered Main Polling id) gets its `invalid-packet` classification
overwritten at index 1 and DOES emit an annotation. -/
theorem C1_bad_header_counterexample :
    (runDecode (transactionEvents 0 [(0xFF, 0x00), (0x42, 0x41)] 9)).2 =
      [{ frame_type := FrameType.validCommand
         start_time := 0
         end_time := 9
         mode_string := "Digital"
         mode_id := "41"
         command_name := "Main Polling"
         command_id := "42"
         command_details := " - (error)"
         data_details := "(error)" }] := by
  decide

/-- Claim C1 (amended): for every transaction whose first console byte is
not 0x01, no annotation is emitted PROVIDED the transaction also has no
byte pair at index 1 whose console byte is a registered command id; with
a registered console byte at index 1, the transaction is re-classified
and an annotation is emitted. -/
theorem C1_bad_header_no_annotation (t u : Nat) (bps : List (Nat × Nat))
    (p0 : Nat × Nat) (h0 : bps.get? 0 = some p0) (hh : p0.1 ≠ 0x01)
    (h1 : ∀ p1, bps.get? 1 = some p1 → COMMAND_METADATA p1.1 = none) :
    (runDecode (transactionEvents t bps u)).2 = [] := by
  obtain ⟨rest, rfl⟩ : ∃ rest, bps = p0 :: rest := by
    cases bps with
    | nil => simp at h0
    | cons q qs =>
      have hq : q = p0 := by simpa using h0
      exact ⟨qs, by rw [hq]⟩
  rw [run_transaction_output, List.foldl_cons, resultStep_enabled_bad_header t p0 hh]
  cases rest with
  | nil =>
    rw [List.foldl_nil, disableStep_not_valid _ _ (by simp)]
    rfl
  | cons p1 rest2 =>
    rw [List.foldl_cons, resultStep_index1_unregistered _ p1 rfl (h1 p1 rfl)]
    exact run_tail_no_emission rest2 u _ (by simp) (by simp)

/-- Witness for C1 (amended): bad header and an unregistered second
console byte emit nothing. -/
theorem C1_bad_header_no_annotation_witness :
    (runDecode (transactionEvents 0 [(0xFF, 0), (0x99, 0)] 4)).2 = [] :=
  C1_bad_header_no_annotation 0 4 [(0xFF, 0), (0x99, 0)] (0xFF, 0) rfl (by decide)
    (fun p1 h => by
      have hp : p1 = (0x99, 0) := by simpa using h.symm
      rw [hp]
      rfl)

/-- Claim C8: a transaction with the 0x01 header whose second console
byte is not a registered command id is classified `invalid-command` and
emits no annotation (so no detail renderer can run). -/
theorem C8_unregistered_command_no_annotation (t u : Nat) (bps : List (Nat × Nat))
    (p0 p1 : Nat × Nat) (h0 : bps.get? 0 = some p0) (hh : p0.1 = 0x01)
    (h1 : bps.get? 1 = some p1) (hreg : COMMAND_METADATA p1.1 = none) :
    (runDecode (transactionEvents t bps u)).2 = [] := by
  obtain ⟨rest, rfl⟩ : ∃ rest, bps = p0 :: rest := by
    cases bps with
    | nil => simp at h0
    | cons q qs =>
      have hq : q = p0 := by simpa using h0
      exact ⟨qs, by rw [hq]⟩
  obtain ⟨rest2, rfl⟩ : ∃ rest2, rest = p1 :: rest2 := by
    cases rest with
    | nil => simp at h1
    | cons q qs =>
      have hq : q = p1 := by simpa using h1
      exact ⟨qs, by rw [hq]⟩
  rw [run_transaction_output, List.foldl_cons, resultStep_enabled_good_header t p0 hh,
      List.foldl_cons, resultStep_index1_unregistered _ p1 rfl hreg]
  exact run_tail_no_emission rest2 u _ (by simp) (by simp)

/-- Witness for C8: header 0x01 and unregistered command id 0x99 emit
nothing even with further byte pairs. -/
theorem C8_unregistered_command_no_annotation_witness :
    (runDecode (transactionEvents 0 [(0x01, 0x41), (0x99, 0x41), (0, 0xFF)] 7)).2 = [] :=
  C8_unregistered_command_no_annotation 0 7 [(0x01, 0x41), (0x99, 0x41), (0, 0xFF)]
    (0x01, 0x41) (0x99, 0x41) rfl rfl rfl rfl

/-- Claim C2, counterexample: a transaction classified `invalid-packet`
at index 0 does NOT keep that classification through the index-1 event —
the `elif` chain re-classifies it from the second console byte. -/
theorem C2_reclassification_counterexample :
    ((runDecode [Frame.enable 0, Frame.result 0xFF 0]).1).current_frame_type =
        some FrameType.invalidPacket ∧
      ((runDecode [Frame.enable 0, Frame.result 0xFF 0,
          Frame.result 0x42 0x41]).1).current_frame_type =
        some FrameType.validCommand := by
  constructor <;> rfl

/-- Claim C2 (amended): the classification is decided no later than
index 1 and never changes at any byte-pair event after index 1; but the
index-1 event always overwrites it from the second console byte
(`valid-command` exactly when it is a registry key), even for a
transaction classified `invalid-packet` at index 0. -/
theorem C2_classification_decided_by_index1 :
    (∀ (s : HlaState) (a b : Nat), 2 ≤ s.current_frame_index →
      ((decode s (Frame.result a b)).1).current_frame_type = s.current_frame_type) ∧
    (∀ (s : HlaState) (a b : Nat), s.current_frame_index = 1 →
      ((decode s (Frame.result a b)).1).current_frame_type =
        some (if (COMMAND_METADATA a).isSome then FrameType.validCommand
              else FrameType.invalidCommand)) := by
  constructor
  · exact fun s a b h => resultStep_type_of_ge2 s a b h
  · intro s a b h
    show (resultStep s a b).current_frame_type = _
    unfold resultStep classifyStep
    rw [if_neg (by rintro ⟨h0, _⟩; omega), if_pos h]

/-- Witness for C2 (amended): stability at index 2, and the index-1
overwrite of an `invalid-packet` classification. -/
theorem C2_classification_decided_by_index1_witness :
    ((decode ⟨some FrameType.invalidCommand, some 0, some 0x99, some 0x41,
        [1, 0x99], [0x41, 0], 2⟩ (Frame.result 7 8)).1).current_frame_type =
      some FrameType.invalidCommand ∧
    ((decode ⟨some FrameType.invalidPacket, some 0, none, none,
        [0xFF], [0], 1⟩ (Frame.result 0x42 0x41)).1).current_frame_type =
      some (if (COMMAND_METADATA 0x42).isSome then FrameType.validCommand
            else FrameType.invalidCommand) := by
  constructor
  · exact C2_classification_decided_by_index1.1
      ⟨some FrameType.invalidCommand, some 0, some 0x99, some 0x41,
        [1, 0x99], [0x41, 0], 2⟩ 7 8 (by decide)
  · exact C2_classification_decided_by_index1.2
      ⟨some FrameType.invalidPacket, some 0, none, none, [0xFF], [0], 1⟩ 0x42 0x41 rfl

/-- Claim C3, counterexample: the end-marker branch never resets the
per-transaction state, so a second end marker with no intervening start
marker emits a second annotation rebuilt from the previous transaction's
bytes: this five-event stream yields two annotations for one
transaction. -/
theorem C3_double_end_marker_counterexample :
    ((runDecode [Frame.enable 0, Frame.result 0x01 0x41, Frame.result 0x42 0x41,
        Frame.disable 5, Frame.disable 9]).2).length = 2 := by
  decide

/-- Claim C3 (amended): the end marker leaves the per-transaction state
completely unchanged (the reset happens only at the next start marker);
hence whether an end marker emits depends only on the state, and a
second end marker with no intervening start marker emits again exactly
when the first did, from the same accumulated bytes.  With exactly one
end marker per transaction this gives at most one annotation per
transaction. -/
theorem C3_end_marker_keeps_state :
    ∀ (s : HlaState) (u u' : Nat),
      (decode s (Frame.disable u)).1 = s ∧
      ((decode s (Frame.disable u)).2.isSome ↔ (decode s (Frame.disable u')).2.isSome) := by
  intro s u u'
  refine ⟨rfl, ?_⟩
  show (disableStep s u).isSome ↔ (disableStep s u').isSome
  unfold disableStep
  split_ifs with h
  · cases s.current_frame_start_time <;>
      cases s.current_frame_command_id <;>
      cases s.current_controller_mode <;>
      simp
    rename_i t cid m
    cases COMMAND_METADATA cid <;> simp
  · simp

/-- Claim C4: a finalized `valid-command` transaction always emits its
annotation; each detail field is a function of its own renderer's result
alone, with a raising renderer replaced by `"(error)"` for that field
only (the command side additionally gets the `" - "` separator the code
prepends to any non-empty command detail). -/
theorem C4_renderer_fault_isolation :
    ∀ (s : HlaState) (u t cid m : Nat) (meta : CommandMetadata),
      s.current_frame_start_time = some t →
      s.current_frame_type = some FrameType.validCommand →
      s.current_frame_command_id = some cid →
      s.current_controller_mode = some m →
      COMMAND_METADATA cid = some meta →
      (decode s (Frame.disable u)).2 = some
        { frame_type := FrameType.validCommand
          start_time := t
          end_time := u
          mode_string := (MODE_NAMES m).getD "Unknown Mode"
          mode_id := hex2 m
          command_name := meta.name
          command_id := hex2 meta.id
          command_details :=
            match meta.command_details_generator s.current_frame_command_bytes
                s.current_frame_data_bytes with
            | some d => if d = "" then "" else " - " ++ d
            | none => " - (error)"
          data_details :=
            match meta.data_details_generator s.current_frame_command_bytes
                s.current_frame_data_bytes with
            | some d => if d = "" then "" else d
            | none => "(error)" } := by
  intro s u t cid m meta hst hty hcid hm hmeta
  have herr : ¬(("(error)" : String) = "") := by decide
  show disableStep s u = _
  unfold disableStep
  rw [hst, hcid, hm, hty, if_pos ⟨rfl, rfl⟩]
  dsimp only
  rw [hmeta]
  dsimp only
  cases hc : meta.command_details_generator s.current_frame_command_bytes
      s.current_frame_data_bytes <;>
    cases hd : meta.data_details_generator s.current_frame_command_bytes
        s.current_frame_data_bytes <;>
    simp [hc, hd, herr]

/-- Witness for C4: Main Polling transaction whose command bytes are too
short for the command renderer (it raises, giving `" - (error)"`) while
the data renderer succeeds (`"(no buttons)"`), and the annotation is
still emitted. -/
theorem C4_renderer_fault_isolation_witness :
    (decode ⟨some FrameType.validCommand, some 3, some 0x42, some 0x41,
        [1, 0x42], [0xFF, 0x41, 0, 0xFF, 0xFF], 5⟩ (Frame.disable 7)).2 = some
      { frame_type := FrameType.validCommand
        start_time := 3
        end_time := 7
        mode_string := "Digital"
        mode_id := "41"
        command_name := "Main Polling"
        command_id := "42"
        command_details := " - (error)"
        data_details := "(no buttons)" } := by
  rw [C4_renderer_fault_isolation
    ⟨some FrameType.validCommand, some 3, some 0x42, some 0x41,
      [1, 0x42], [0xFF, 0x41, 0, 0xFF, 0xFF], 5⟩ 7 3 0x42 0x41
    ⟨0x42, "Main Polling", cmd42_command_details, cmd42_data_details⟩
    rfl rfl rfl rfl rfl]
  decide

/-- Claim C9: detail resolution is pure — re-running the end-marker
finalization on the same transaction state produces identical command
and data detail strings (and emits in exactly the same cases), whatever
the end timestamps. -/
theorem C9_renderer_purity :
    ∀ (s : HlaState) (u u' : Nat),
      ((decode s (Frame.disable u)).2).map (fun a => (a.command_details, a.data_details)) =
        ((decode s (Frame.disable u')).2).map (fun a => (a.command_details, a.data_details)) := by
  intro s u u'
  show ((disableStep s u).map _) = ((disableStep s u').map _)
  unfold disableStep
  split_ifs with h
  · cases s.current_frame_start_time <;>
      cases s.current_frame_command_id <;>
      cases s.current_controller_mode <;>
      simp
    rename_i t cid m
    cases COMMAND_METADATA cid <;> simp
  · simp

example : hex2 0x41 = "41" := by decide
example : hex2 0x05 = "05" := by decide
example : hex2 0 = "00" := by decide
example : cmd42_data_details [] [0, 0, 0, 0xFF, 0xFF] = some "(no buttons)" := by decide
example : cmd42_data_details [] [0, 0, 0, 0xFE, 0xFF] = some "Select" := by decide
example : cmd42_data_details [] [0, 0, 0, 0xFF, 0xEF] = some "🔺" := by decide
example : cmd42_data_details [] [0, 0, 0, 0xFF] = none := by decide
example : cmd43_command_details [1, 0x43, 0, 1] [] = some "Enter" := by decide
example : cmd44_command_details [1, 0x44, 0, 1, 3] [] = some "Set Analog (Locked)" := by decide
example : cmd42_command_details [1, 0x42, 0, 0xFF, 0x40] [] =
    some "Small Motor True, Large Motor True" := by decide
example : cmd42_command_details [1, 0x42, 0, 0, 0] [] = some "" := by decide
example : cmd4d_command_details [1, 0x4D, 0, 0, 1] [] = some "Map Small, Map Large" := by decide

-- A full valid transaction emits exactly one annotated frame.
example :
    (runDecode (transactionEvents 0
        [(1, 0x41), (0x42, 0x41), (0, 0xFF), (0, 0xFF), (0, 0xFF)] 9)).2 =
      [{ frame_type := FrameType.validCommand
         start_time := 0
         end_time := 9
         mode_string := "Digital"
         mode_id := "41"
         command_name := "Main Polling"
         command_id := "42"
         command_details := ""
         data_details := "(no buttons)" }] := by decide

-- Bad header immediately followed by the end marker: no emission.
example : (runDecode (transactionEvents 0 [(0xFF, 0)] 9)).2 = [] := by decide

-- Bad header, but the index-1 console byte is a registered command id:
-- the invalid-packet classification is overwritten and a frame IS emitted.
example : (runDecode (transactionEvents 0 [(0xFF, 0), (0x42, 0x41)] 9)).2.length = 1 := by decide

end PS2Analyzer
